import Mathlib

/-!
Verification of the AIBSS dog-behavior analysis pipeline.

The frontend of the repository (`dog-behavior-dashboard/src/api.js`) is embedded
directly from source.  The backend scoring/aggregation engine
(`backend/utils/video_analysis.py`, `backend/app.py`) is not present in the
source tree — only its documentation (`backend/REDESIGN_COMPLETE.md`,
`backend/IMPLEMENTATION_SUMMARY.md`, the README) — so those components are
modelled from the specification, as indicated on each definition.

Real-valued quantities (detector confidences, aggression scores, vote
fractions) are modelled with ℚ.
-/

namespace AIBSS

/-- Modelled from the spec (§3 Data Model): a detection produced by the
external object detector: class label, confidence, bounding box. -/
structure Detection where
  class_label : String
  confidence : ℚ
  bounding_box : ℚ × ℚ × ℚ × ℚ
deriving DecidableEq, Repr

/-- Binary per-frame / per-video classification. -/
inductive Classification where
  | AGGRESSIVE
  | NON_AGGRESSIVE
deriving DecidableEq, Repr

/-- Modelled from the spec (§6): the fixed class→weight table
`{"dog biting child":1.0, "chasing dog":0.8, "running child":0.6,
"child":0.1, "dog":0.1}`; any other label defaults to weight 0. -/
def classWeight (label : String) : ℚ :=
  if label = "dog biting child" then 1
  else if label = "chasing dog" then mkRat 8 10
  else if label = "running child" then mkRat 6 10
  else if label = "child" then mkRat 1 10
  else if label = "dog" then mkRat 1 10
  else 0

/-- Modelled from the spec (§6): minimum detector confidence for a detection
to be considered. -/
def confidence_threshold : ℚ := mkRat 25 100

/-- Modelled from the spec (§6): score cutoff at or above which a frame is
classified AGGRESSIVE. -/
def aggression_threshold : ℚ := mkRat 5 10

/-- Modelled from the spec (§4.2 FrameScorer, step 1): discard detections
with `confidence < confidence_threshold`. -/
def surviving (dets : List Detection) : List Detection :=
  dets.filter (fun d => confidence_threshold ≤ d.confidence)

/-- Modelled from the spec (§4.2 FrameScorer, step 2): `aggression_score` is
the maximum class weight among the surviving detections, and 0 when none
survive. -/
def aggressionScore (dets : List Detection) : ℚ :=
  ((surviving dets).map (fun d => classWeight d.class_label)).foldr max 0

/-- Modelled from the spec (§4.2 FrameScorer, step 3): AGGRESSIVE iff
`aggression_score ≥ aggression_threshold`. -/
def classifyFrame (dets : List Detection) : Classification :=
  if aggression_threshold ≤ aggressionScore dets then Classification.AGGRESSIVE
  else Classification.NON_AGGRESSIVE

/-- Modelled from the spec (§4.2 FrameScorer, step 4): fixed
severity-to-text mapping for the live path; the spec gives the texts for
weights 1.0, 0.8 and ≤ 0.1 explicitly. -/
def severityText (label : String) : String :=
  if classWeight label = 1 then "Critical: " ++ label ++ " detected"
  else if classWeight label = mkRat 8 10 then "High risk: " ++ label ++ " detected"
  else if classWeight label ≤ mkRat 1 10 then "No significant aggressive behavior detected"
  else "Elevated risk: " ++ label ++ " detected"

/-- Modelled from the spec (§4.2): the single highest-weight surviving
class of a frame, when any detection survives the confidence filter. -/
def topLabel (dets : List Detection) : Option String :=
  match surviving dets with
  | [] => none
  | d :: ds =>
    some ((ds.foldl
      (fun best e =>
        if classWeight best.class_label < classWeight e.class_label then e else best)
      d).class_label)

/-- Modelled from the spec (§4.2, step 4): the live-path reason string,
derived from the highest-weight surviving class. -/
def reasonFor (dets : List Detection) : String :=
  match topLabel dets with
  | none => "No significant aggressive behavior detected"
  | some lbl => severityText lbl

/-- Modelled from the spec (§4.1 FrameSampler): number of sampled indices —
the count of multiples of `frame_skip` below `total_frames`, capped at
`max_frames`. -/
def sampleCount (total_frames frame_skip max_frames : ℕ) : ℕ :=
  min ((total_frames + frame_skip - 1) / frame_skip) max_frames

/-- Modelled from the spec (§4.1 FrameSampler): the sequence of sampled
frame indices `0, frame_skip, 2*frame_skip, …`, truncated to at most
`max_frames` entries and never exceeding `total_frames - 1`. -/
def frameSampler (total_frames frame_skip max_frames : ℕ) : List ℕ :=
  (List.range (sampleCount total_frames frame_skip max_frames)).map
    (fun i => i * frame_skip)

/-- Modelled from the spec (§3): the per-frame result produced by
FrameScorer — index, timestamp, confidence-filtered detections, score and
binary classification. -/
structure FrameResult where
  frame_index : ℕ
  timestamp_seconds : ℚ
  detections : List Detection
  aggression_score : ℚ
  classification : Classification
deriving DecidableEq, Repr

/-- Modelled from the spec (§4.2): FrameScorer applied to one frame. -/
def scoreFrame (idx : ℕ) (ts : ℚ) (dets : List Detection) : FrameResult :=
  { frame_index := idx
    timestamp_seconds := ts
    detections := surviving dets
    aggression_score := aggressionScore dets
    classification := classifyFrame dets }

/-- Modelled from the spec (§3): video metadata derived from the decoder
and the sampling policy. -/
structure VideoMetadata where
  duration_seconds : ℚ
  fps : ℚ
  total_frames : ℕ
  frames_processed : ℕ
  frame_skip : ℕ
deriving DecidableEq, Repr

/-- Modelled from the spec (§3): the aggregate over all processed frames of
one video request. -/
structure AggregateResult where
  classification : Classification
  confidence : ℚ
  aggressive_votes : ℕ
  non_aggressive_votes : ℕ
  average_aggression_score : ℚ
  frame_results : List FrameResult
deriving DecidableEq, Repr

/-- Modelled from the spec (§4.3): running count of frames classified
AGGRESSIVE. -/
def aggressiveVotes (frs : List FrameResult) : ℕ :=
  frs.countP (fun fr => decide (fr.classification = Classification.AGGRESSIVE))

/-- Modelled from the spec (§4.3): running count of frames classified
NON_AGGRESSIVE. -/
def nonAggressiveVotes (frs : List FrameResult) : ℕ :=
  frs.countP (fun fr => decide (fr.classification = Classification.NON_AGGRESSIVE))

/-- Modelled from the spec (§4.3): majority vote, with the tie resolving to
the fail-safe default NON_AGGRESSIVE. -/
def finalClassification (a n : ℕ) : Classification :=
  if n < a then Classification.AGGRESSIVE else Classification.NON_AGGRESSIVE

/-- Modelled from the spec (§4.3): VoteAggregator as a pure fold over the
FrameResult sequence; `confidence` is the winning-class vote fraction and
`average_aggression_score` the mean score over all processed frames. -/
def aggregate (frs : List FrameResult) : AggregateResult :=
  let a := aggressiveVotes frs
  let n := nonAggressiveVotes frs
  { classification := finalClassification a n
    confidence := (max a n : ℚ) / (frs.length : ℚ)
    aggressive_votes := a
    non_aggressive_votes := n
    average_aggression_score := (frs.map (fun fr => fr.aggression_score)).sum / (frs.length : ℚ)
    frame_results := frs }

/-- Modelled from the spec (§2, §5): the external collaborators of one
video request — decoder metadata, per-frame decode success, and the
detector output per frame index. -/
structure VideoSource where
  total_frames : ℕ
  fps : ℚ
  decodeOk : ℕ → Bool
  detections : ℕ → List Detection

/-- Modelled from the spec (§7): sampled indices that actually decode; a
frame that fails to decode is skipped and does not count toward
`frames_processed`. -/
def processedIndices (v : VideoSource) (frame_skip max_frames : ℕ) : List ℕ :=
  (frameSampler v.total_frames frame_skip max_frames).filter v.decodeOk

/-- Modelled from the spec (§2 control flow): decode, detect and score each
sampled frame, in sampling order. -/
def frameResults (v : VideoSource) (frame_skip max_frames : ℕ) : List FrameResult :=
  (processedIndices v frame_skip max_frames).map
    (fun i => scoreFrame i ((i : ℚ) / v.fps) (v.detections i))

/-- Modelled from the spec (§3, §4.4): VideoMetadata assembled by the
composer; `frames_processed` counts the frames actually scored. -/
def videoMetadataOf (v : VideoSource) (frame_skip max_frames : ℕ) : VideoMetadata :=
  { duration_seconds := (v.total_frames : ℚ) / v.fps
    fps := v.fps
    total_frames := v.total_frames
    frames_processed := (frameResults v frame_skip max_frames).length
    frame_skip := frame_skip }

/-- Modelled from the spec (§7): error taxonomy of the analysis pipeline. -/
inductive AnalysisError where
  | NoFramesDecodedError
  | DetectorUnavailableError
deriving DecidableEq, Repr

/-- Modelled from the spec (§6): the final video-analysis payload. -/
structure VideoAnalysisResponse where
  classification : Classification
  confidence : ℚ
  video_metadata : VideoMetadata
  aggregate : AggregateResult
  reason : String
deriving DecidableEq, Repr

/-- Modelled from the spec (§4.4 ResultComposer): merge VideoMetadata and
AggregateResult into the final response (pure assembly). -/
def composeVideo (v : VideoSource) (frame_skip max_frames : ℕ) : VideoAnalysisResponse :=
  let agg := aggregate (frameResults v frame_skip max_frames)
  { classification := agg.classification
    confidence := agg.confidence
    video_metadata := videoMetadataOf v frame_skip max_frames
    aggregate := agg
    reason :=
      match agg.classification with
      | Classification.AGGRESSIVE => "Aggressive behavior detected by majority vote"
      | Classification.NON_AGGRESSIVE => "No significant aggressive behavior detected" }

/-- Modelled from the spec (§2, §7): the video endpoint — fail with
NoFramesDecodedError when the decoder reports zero frames or every sampled
frame fails to decode; otherwise run the sampling/scoring/aggregation
pipeline. -/
def analyzeVideoPipeline (v : VideoSource) (frame_skip max_frames : ℕ) :
    Except AnalysisError VideoAnalysisResponse :=
  if v.total_frames = 0 then Except.error AnalysisError.NoFramesDecodedError
  else if (frameResults v frame_skip max_frames).length = 0 then
    Except.error AnalysisError.NoFramesDecodedError
  else Except.ok (composeVideo v frame_skip max_frames)

/-- Modelled from the spec (§6): the live/single-frame payload —
FrameScorer + ResultComposer on one detection set; `confidence` equals the
score of the frame. -/
structure LiveAnalysisResponse where
  classification : Classification
  confidence : ℚ
  dog_detected : Bool
  detections : List Detection
  reason : String
  aggression_score : ℚ
deriving DecidableEq, Repr

/-- Modelled from the spec (§2, §6): the live-frame path. -/
def analyzeLivePipeline (dets : List Detection) : LiveAnalysisResponse :=
  { classification := classifyFrame dets
    confidence := aggressionScore dets
    dog_detected := !(surviving dets).isEmpty
    detections := surviving dets
    reason := reasonFor dets
    aggression_score := aggressionScore dets }

/-! ### Frontend upload validation, embedded from
`dog-behavior-dashboard/src/api.js`. -/

/-- A browser `File` value as seen by `api.js`: MIME type string and size
in bytes. -/
structure UploadFile where
  type : String
  size : ℕ
  name : String
deriving DecidableEq, Repr

/-- What an `api.js` analysis function does before returning: throw one of
its validation errors, or issue the POST of the file to an endpoint. -/
inductive ApiOutcome where
  | throwNoFile (message : String)
  | throwInvalidType (message : String)
  | throwTooLarge (message : String)
  | post (endpoint : String) (file : UploadFile)
deriving DecidableEq, Repr

/-- `allowedTypes` of `analyzeImage` in `api.js`. -/
def imageAllowedTypes : List String :=
  ["image/jpeg", "image/jpg", "image/png", "image/webp"]

/-- `maxSize` of `analyzeImage` in `api.js`: 10 MB. -/
def imageMaxSize : ℕ := 10 * 1024 * 1024

/-- `allowedTypes` of `analyzeVideo` in `api.js`. -/
def videoAllowedTypes : List String :=
  ["video/mp4", "video/avi", "video/mov", "video/quicktime"]

/-- `maxSize` of `analyzeVideo` in `api.js`: 100 MB. -/
def videoMaxSize : ℕ := 100 * 1024 * 1024

/-- `analyzeImage` from `api.js`: reject a missing file, then a MIME type
outside `allowedTypes`, then a size above 10 MB, and only then POST to
`/analyze_image`. -/
def analyzeImage (file : Option UploadFile) : ApiOutcome :=
  match file with
  | none => ApiOutcome.throwNoFile "No file provided"
  | some f =>
    if !(imageAllowedTypes.contains f.type) then
      ApiOutcome.throwInvalidType "Invalid file type. Please upload a JPEG, PNG, or WebP image."
    else if imageMaxSize < f.size then
      ApiOutcome.throwTooLarge "File size too large. Please upload an image smaller than 10MB."
    else ApiOutcome.post "/analyze_image" f

/-- `analyzeVideo` from `api.js`: reject a missing file, then a MIME type
outside `allowedTypes`, then a size above 100 MB, and only then POST to
`/analyze_video`. -/
def analyzeVideo (file : Option UploadFile) : ApiOutcome :=
  match file with
  | none => ApiOutcome.throwNoFile "No file provided"
  | some f =>
    if !(videoAllowedTypes.contains f.type) then
      ApiOutcome.throwInvalidType "Invalid file type. Please upload an MP4, AVI, or MOV video."
    else if videoMaxSize < f.size then
      ApiOutcome.throwTooLarge "File size too large. Please upload a video smaller than 100MB."
    else ApiOutcome.post "/analyze_video" f

/-- `analyzeLiveFrame` from `api.js`: throw only when the file argument is
absent; otherwise POST the file to `/analyze_live` with no type or size
validation. -/
def analyzeLiveFrame (file : Option UploadFile) : ApiOutcome :=
  match file with
  | none => ApiOutcome.throwNoFile "No frame data provided"
  | some f => ApiOutcome.post "/analyze_live" f

/-! ### Helper lemmas -/

lemma foldr_max_nonneg (l : List ℚ) : 0 ≤ l.foldr max 0 := by
  induction l with
  | nil => simp
  | cons x xs ih => exact le_trans ih (le_max_right x (xs.foldr max 0))

lemma le_foldr_max (l : List ℚ) (x : ℚ) (hx : x ∈ l) : x ≤ l.foldr max 0 := by
  induction l with
  | nil => cases hx
  | cons y ys ih =>
    rcases List.mem_cons.mp hx with h | h
    · subst h; exact le_max_left _ _
    · exact le_trans (ih h) (le_max_right _ _)

lemma foldr_max_le (l : List ℚ) (b : ℚ) (hb : 0 ≤ b)
    (h : ∀ x ∈ l, x ≤ b) : l.foldr max 0 ≤ b := by
  induction l with
  | nil => simpa using hb
  | cons y ys ih =>
    refine max_le (h y (List.mem_cons_self y ys)) ?_
    exact ih (fun x hx => h x (List.mem_cons_of_mem y hx))

lemma foldr_max_eq_zero_or_mem (l : List ℚ) :
    l.foldr max 0 = 0 ∨ l.foldr max 0 ∈ l := by
  induction l with
  | nil => left; rfl
  | cons y ys ih =>
    rcases max_choice y (ys.foldr max 0) with h | h
    · right; rw [List.foldr_cons, h]; exact List.mem_cons_self y ys
    · rcases ih with h0 | hm
      · left; rw [List.foldr_cons, h, h0]
      · right; rw [List.foldr_cons, h]; exact List.mem_cons_of_mem y hm

lemma classWeight_nonneg (label : String) : 0 ≤ classWeight label := by
  unfold classWeight
  split <;> try norm_num
  split <;> try norm_num
  split <;> try norm_num
  split <;> try norm_num
  split <;> norm_num

lemma classWeight_le_one (label : String) : classWeight label ≤ 1 := by
  unfold classWeight
  split <;> try norm_num
  split <;> try norm_num
  split <;> try norm_num
  split <;> try norm_num
  split <;> norm_num

lemma aggressionScore_nonneg (dets : List Detection) : 0 ≤ aggressionScore dets :=
  foldr_max_nonneg _

lemma aggressionScore_le_one (dets : List Detection) : aggressionScore dets ≤ 1 := by
  refine foldr_max_le _ _ (by norm_num) ?_
  intro x hx
  rcases List.mem_map.mp hx with ⟨d, _, hd⟩
  exact hd ▸ classWeight_le_one d.class_label

lemma votes_sum (frs : List FrameResult) :
    aggressiveVotes frs + nonAggressiveVotes frs = frs.length := by
  induction frs with
  | nil => rfl
  | cons fr rest ih =>
    unfold aggressiveVotes nonAggressiveVotes at *
    cases h : fr.classification <;>
      simp [List.countP_cons, h] <;> omega

/-- A sample below-threshold detection used by witnesses. -/
def faintDogDetection : Detection :=
  { class_label := "dog", confidence := mkRat 1 10, bounding_box := (0, 0, 1, 1) }

/-- A sample above-threshold neutral detection used by witnesses. -/
def calmDogDetection : Detection :=
  { class_label := "dog", confidence := mkRat 9 10, bounding_box := (0, 0, 1, 1) }

/-- The live-frame detection of the end-to-end scenario in the spec:
`{"dog biting child", 0.92, bbox}`. -/
def biteDetection : Detection :=
  { class_label := "dog biting child", confidence := mkRat 92 100, bounding_box := (0, 0, 1, 1) }

/-- C7: FrameScorer is a total function; on any detection list with no
entry at or above `confidence_threshold` (in particular the empty list) it
returns `aggression_score = 0` and classification NON_AGGRESSIVE rather
than an error. -/
theorem frameScorer_total_below_threshold (dets : List Detection)
    (h : ∀ d ∈ dets, d.confidence < confidence_threshold) :
    aggressionScore dets = 0 ∧ classifyFrame dets = Classification.NON_AGGRESSIVE := by
  have hsurv : surviving dets = [] := by
    refine List.filter_eq_nil_iff.mpr ?_
    intro d hd
    simpa using not_le.mpr (h d hd)
  have hscore : aggressionScore dets = 0 := by
    unfold aggressionScore
    rw [hsurv]
    rfl
  refine ⟨hscore, ?_⟩
  unfold classifyFrame
  rw [hscore, if_neg (by decide : ¬ (aggression_threshold ≤ (0 : ℚ)))]

/-- Witness for C7 at a concrete one-element detection list below the
confidence threshold. -/
theorem frameScorer_total_below_threshold_witness :
    (∀ d ∈ [faintDogDetection], d.confidence < confidence_threshold)
    ∧ aggressionScore [faintDogDetection] = 0
    ∧ classifyFrame [faintDogDetection] = Classification.NON_AGGRESSIVE := by
  refine ⟨by decide, ?_⟩
  exact frameScorer_total_below_threshold [faintDogDetection] (by decide)

/-- C9: `analyzeLiveFrame` performs no MIME-type and no file-size
validation: every present file, of any type and size, is posted to
`/analyze_live`; it throws before sending only when the file argument is
absent. -/
theorem analyzeLiveFrame_no_validation :
    (∀ f : UploadFile, analyzeLiveFrame (some f) = ApiOutcome.post "/analyze_live" f)
    ∧ analyzeLiveFrame none = ApiOutcome.throwNoFile "No frame data provided" :=
  ⟨fun _ => rfl, rfl⟩

/-- C8: `analyzeImage` and `analyzeVideo` reject a file whose MIME type is
outside the respective allowed set or whose size exceeds the limit (10 MB
for images, 100 MB for videos) with a thrown error, and in that case no
POST is issued. -/
theorem upload_validation_rejects (f : UploadFile) :
    ((f.type ∉ imageAllowedTypes ∨ imageMaxSize < f.size) →
      (analyzeImage (some f) =
          ApiOutcome.throwInvalidType
            "Invalid file type. Please upload a JPEG, PNG, or WebP image."
        ∨ analyzeImage (some f) =
          ApiOutcome.throwTooLarge
            "File size too large. Please upload an image smaller than 10MB.")
      ∧ ∀ e g, analyzeImage (some f) ≠ ApiOutcome.post e g)
    ∧ ((f.type ∉ videoAllowedTypes ∨ videoMaxSize < f.size) →
      (analyzeVideo (some f) =
          ApiOutcome.throwInvalidType
            "Invalid file type. Please upload an MP4, AVI, or MOV video."
        ∨ analyzeVideo (some f) =
          ApiOutcome.throwTooLarge
            "File size too large. Please upload a video smaller than 100MB.")
      ∧ ∀ e g, analyzeVideo (some f) ≠ ApiOutcome.post e g) := by
  constructor
  · intro h
    unfold analyzeImage
    by_cases hmem : f.type ∈ imageAllowedTypes
    · have hsize : imageMaxSize < f.size := by
        rcases h with h | h
        · exact absurd hmem h
        · exact h
      simp [hmem, hsize]
    · simp [hmem]
  · intro h
    unfold analyzeVideo
    by_cases hmem : f.type ∈ videoAllowedTypes
    · have hsize : videoMaxSize < f.size := by
        rcases h with h | h
        · exact absurd hmem h
        · exact h
      simp [hmem, hsize]
    · simp [hmem]

/-- Witness for C8 at a concrete text file, rejected by both upload
functions for its MIME type. -/
theorem upload_validation_rejects_witness :
    (({ type := "text/plain", size := 5, name := "a.txt" } : UploadFile).type
        ∉ imageAllowedTypes
      ∨ imageMaxSize < ({ type := "text/plain", size := 5, name := "a.txt" } : UploadFile).size)
    ∧ ∀ e g,
      analyzeImage (some { type := "text/plain", size := 5, name := "a.txt" })
        ≠ ApiOutcome.post e g := by
  refine ⟨Or.inl (by decide), ?_⟩
  exact ((upload_validation_rejects
    { type := "text/plain", size := 5, name := "a.txt" }).1 (Or.inl (by decide))).2

/-- C1: for every completed video aggregation with at least one processed
frame, the final classification is AGGRESSIVE iff
`aggressive_votes > non_aggressive_votes`, is NON_AGGRESSIVE when
`non_aggressive_votes > aggressive_votes`, and the tie resolves to
NON_AGGRESSIVE. -/
theorem majority_vote_final_classification (frs : List FrameResult)
    (h : 0 < frs.length) :
    ((aggregate frs).classification = Classification.AGGRESSIVE ↔
      (aggregate frs).non_aggressive_votes < (aggregate frs).aggressive_votes)
    ∧ ((aggregate frs).aggressive_votes < (aggregate frs).non_aggressive_votes →
      (aggregate frs).classification = Classification.NON_AGGRESSIVE)
    ∧ ((aggregate frs).aggressive_votes = (aggregate frs).non_aggressive_votes →
      (aggregate frs).classification = Classification.NON_AGGRESSIVE) := by
  have hc : (aggregate frs).classification
      = finalClassification (aggressiveVotes frs) (nonAggressiveVotes frs) := rfl
  have ha : (aggregate frs).aggressive_votes = aggressiveVotes frs := rfl
  have hn : (aggregate frs).non_aggressive_votes = nonAggressiveVotes frs := rfl
  rw [hc, ha, hn]
  unfold finalClassification
  by_cases hlt : nonAggressiveVotes frs < aggressiveVotes frs
  · rw [if_pos hlt]
    exact ⟨⟨fun _ => hlt, fun _ => rfl⟩,
      fun hh => absurd hlt (by omega), fun hh => absurd hlt (by omega)⟩
  · rw [if_neg hlt]
    exact ⟨⟨fun hEq => absurd hEq (by decide), fun hh => absurd hh hlt⟩,
      fun _ => rfl, fun _ => rfl⟩

/-- Witness for C1 at a one-frame aggregation run. -/
theorem majority_vote_final_classification_witness :
    0 < [scoreFrame 0 0 []].length
    ∧ (((aggregate [scoreFrame 0 0 []]).classification = Classification.AGGRESSIVE ↔
        (aggregate [scoreFrame 0 0 []]).non_aggressive_votes
          < (aggregate [scoreFrame 0 0 []]).aggressive_votes)
      ∧ ((aggregate [scoreFrame 0 0 []]).aggressive_votes
          < (aggregate [scoreFrame 0 0 []]).non_aggressive_votes →
        (aggregate [scoreFrame 0 0 []]).classification = Classification.NON_AGGRESSIVE)
      ∧ ((aggregate [scoreFrame 0 0 []]).aggressive_votes
          = (aggregate [scoreFrame 0 0 []]).non_aggressive_votes →
        (aggregate [scoreFrame 0 0 []]).classification = Classification.NON_AGGRESSIVE)) :=
  ⟨by decide, majority_vote_final_classification [scoreFrame 0 0 []] (by decide)⟩

/-- C2: for every completed video aggregation with at least one processed
frame, the reported confidence equals
`max(aggressive_votes, non_aggressive_votes) / frames_processed` and lies
in `[0.5, 1]`. -/
theorem vote_confidence_formula_and_bounds (frs : List FrameResult)
    (h : 0 < frs.length) :
    (aggregate frs).confidence =
      ((max (aggregate frs).aggressive_votes (aggregate frs).non_aggressive_votes : ℕ) : ℚ)
        / (((aggregate frs).frame_results.length : ℕ) : ℚ)
    ∧ (1 : ℚ)/2 ≤ (aggregate frs).confidence
    ∧ (aggregate frs).confidence ≤ 1 := by
  have hsum := votes_sum frs
  have hconf : (aggregate frs).confidence
      = max ((aggressiveVotes frs : ℕ) : ℚ) ((nonAggressiveVotes frs : ℕ) : ℚ)
        / ((frs.length : ℕ) : ℚ) := rfl
  have hL : (0 : ℚ) < ((frs.length : ℕ) : ℚ) := by exact_mod_cast h
  refine ⟨by rw [hconf, Nat.cast_max]; exact rfl, ?_, ?_⟩
  · have h2 : frs.length ≤ 2 * max (aggressiveVotes frs) (nonAggressiveVotes frs) := by
      omega
    have h2q : ((frs.length : ℕ) : ℚ)
        ≤ 2 * max ((aggressiveVotes frs : ℕ) : ℚ) ((nonAggressiveVotes frs : ℕ) : ℚ) := by
      exact_mod_cast h2
    rw [hconf, div_le_div_iff₀ (by norm_num) hL]
    linarith
  · have hmle : max (aggressiveVotes frs) (nonAggressiveVotes frs) ≤ frs.length := by
      omega
    rw [hconf, div_le_one hL]
    exact_mod_cast hmle

/-- Witness for C2 at a one-frame aggregation run. -/
theorem vote_confidence_formula_and_bounds_witness :
    0 < [scoreFrame 0 0 []].length
    ∧ ((aggregate [scoreFrame 0 0 []]).confidence =
        ((max (aggregate [scoreFrame 0 0 []]).aggressive_votes
            (aggregate [scoreFrame 0 0 []]).non_aggressive_votes : ℕ) : ℚ)
          / (((aggregate [scoreFrame 0 0 []]).frame_results.length : ℕ) : ℚ)
      ∧ (1 : ℚ)/2 ≤ (aggregate [scoreFrame 0 0 []]).confidence
      ∧ (aggregate [scoreFrame 0 0 []]).confidence ≤ 1) :=
  ⟨by decide, vote_confidence_formula_and_bounds [scoreFrame 0 0 []] (by decide)⟩

/-- C3: the aggression score of a frame is the maximum class weight among
the detections surviving the confidence filter (an attained upper bound,
not a sum or average); any detection set containing "dog biting child"
above the confidence threshold scores exactly 1; and the live frame with
the single detection {"dog biting child", 0.92} yields score 1 (the class
weight, not the detector confidence), classification AGGRESSIVE, and
reason "Critical: dog biting child detected". -/
theorem aggression_score_is_max_weight :
    (∀ dets : List Detection,
      (∀ d ∈ surviving dets, classWeight d.class_label ≤ aggressionScore dets)
      ∧ (aggressionScore dets = 0
        ∨ ∃ d ∈ surviving dets, classWeight d.class_label = aggressionScore dets))
    ∧ (∀ dets : List Detection,
      (∃ d ∈ dets, d.class_label = "dog biting child"
        ∧ confidence_threshold ≤ d.confidence) →
      aggressionScore dets = 1)
    ∧ (analyzeLivePipeline [biteDetection]).aggression_score = 1
    ∧ (analyzeLivePipeline [biteDetection]).classification = Classification.AGGRESSIVE
    ∧ (analyzeLivePipeline [biteDetection]).reason
        = "Critical: dog biting child detected" := by
  refine ⟨?_, ?_, by decide, by decide, by decide⟩
  · intro dets
    constructor
    · intro d hd
      exact le_foldr_max _ _ (List.mem_map.mpr ⟨d, hd, rfl⟩)
    · rcases foldr_max_eq_zero_or_mem
        ((surviving dets).map (fun d => classWeight d.class_label)) with h0 | hm
      · exact Or.inl h0
      · rcases List.mem_map.mp hm with ⟨d, hd, hw⟩
        exact Or.inr ⟨d, hd, hw⟩
  · rintro dets ⟨d, hd, hlabel, hconf⟩
    have hdsurv : d ∈ surviving dets :=
      List.mem_filter.mpr ⟨hd, by simpa using hconf⟩
    have hw : classWeight d.class_label = 1 := by rw [hlabel]; decide
    have hge : (1 : ℚ) ≤ aggressionScore dets := by
      rw [← hw]
      exact le_foldr_max _ _ (List.mem_map.mpr ⟨d, hdsurv, rfl⟩)
    exact le_antisymm (aggressionScore_le_one dets) hge

/-- Witness for the conditional part of C3 at the concrete biting detection. -/
theorem aggression_score_is_max_weight_witness :
    (∃ d ∈ [biteDetection], d.class_label = "dog biting child"
      ∧ confidence_threshold ≤ d.confidence)
    ∧ aggressionScore [biteDetection] = 1 :=
  ⟨⟨biteDetection, List.mem_singleton.mpr rfl, rfl, by decide⟩,
    aggression_score_is_max_weight.2.1 [biteDetection]
      ⟨biteDetection, List.mem_singleton.mpr rfl, rfl, by decide⟩⟩

/-- C4 counterexample: at total_frames = 3, frame_skip = 5, max_frames = 0
the sampler yields the empty sequence — the truncation bound wins — so the
clause of the claim "when 0 < total_frames ≤ frame_skip the sequence is exactly
[0]" fails for max_frames = 0. -/
theorem frameSampler_short_video_zero_max :
    0 < 3 ∧ 3 ≤ 5 ∧ frameSampler 3 5 0 = [] ∧ frameSampler 3 5 0 ≠ [0] := by
  decide

/-- C4 (amended): for frame_skip ≥ 1, the sampler yields exactly the
indices 0, frame_skip, 2·frame_skip, … — at most max_frames of them, each
below total_frames, and every such multiple is included; the sequence is
empty when total_frames = 0; it is exactly [0] when
0 < total_frames ≤ frame_skip, provided max_frames ≥ 1; and at
total_frames = 1000, frame_skip = 5, max_frames = 100 it is exactly the
100 indices 0, 5, …, 495. -/
theorem frameSampler_spec (total k maxf : ℕ) (hk : 1 ≤ k) :
    (frameSampler total k maxf).length ≤ maxf
    ∧ (∀ i (h : i < (frameSampler total k maxf).length),
        (frameSampler total k maxf)[i] = i * k)
    ∧ (∀ x ∈ frameSampler total k maxf, x < total)
    ∧ (∀ j, j * k < total → j < maxf → j * k ∈ frameSampler total k maxf)
    ∧ (total = 0 → frameSampler total k maxf = [])
    ∧ (0 < total → total ≤ k → 1 ≤ maxf → frameSampler total k maxf = [0])
    ∧ frameSampler 1000 5 100 = (List.range 100).map (fun i => i * 5) := by
  refine ⟨?_, ?_, ?_, ?_, ?_, ?_, by decide⟩
  · simp only [frameSampler, List.length_map, List.length_range, sampleCount]
    exact min_le_right _ _
  · intro i h
    simp [frameSampler]
  · intro x hx
    simp only [frameSampler, List.mem_map, List.mem_range] at hx
    obtain ⟨j, hj, rfl⟩ := hx
    rw [sampleCount] at hj
    have hj1 : j + 1 ≤ (total + k - 1) / k := by omega
    have h1 : (j + 1) * k ≤ total + k - 1 :=
      (Nat.le_div_iff_mul_le (by omega)).mp hj1
    have h2 : j * k + k ≤ total + k - 1 := by
      calc j * k + k = (j + 1) * k := by ring
      _ ≤ total + k - 1 := h1
    set m := j * k
    omega
  · intro j hjt hjm
    refine List.mem_map.mpr ⟨j, List.mem_range.mpr ?_, rfl⟩
    have hmul : (j + 1) * k ≤ total + k - 1 := by
      have h3 : j * k + k ≤ total + k - 1 := by
        set m := j * k
        omega
      calc (j + 1) * k = j * k + k := by ring
      _ ≤ total + k - 1 := h3
    have hdiv : j + 1 ≤ (total + k - 1) / k :=
      (Nat.le_div_iff_mul_le (by omega)).mpr hmul
    rw [sampleCount]
    omega
  · intro h0
    subst h0
    have hz : (k - 1) / k = 0 := Nat.div_eq_of_lt (by omega)
    simp [frameSampler, sampleCount, hz]
  · intro hpos hle hmax
    have hcount : sampleCount total k maxf = 1 := by
      have hdiv : (total + k - 1) / k = 1 := by
        apply Nat.div_eq_of_lt_le <;> omega
      rw [sampleCount, hdiv]
      omega
    rw [frameSampler, hcount, show List.range 1 = [0] from rfl]
    simp

/-- Witness for the amended C4 statement at the worked example of the spec. -/
theorem frameSampler_spec_witness :
    1 ≤ 5 ∧ (frameSampler 1000 5 100).length ≤ 100 :=
  ⟨by decide, (frameSampler_spec 1000 5 100 (by decide)).1⟩

/-- A small concrete video source used by witnesses. -/
def sampleSource : VideoSource :=
  { total_frames := 10
    fps := 30
    decodeOk := fun _ => true
    detections := fun _ => [calmDogDetection] }

/-- C5: after every video aggregation run,
`aggressive_votes + non_aggressive_votes = frames_processed =
len(frame_results)`, and — given the data-model assumption that the
external detector reports confidences in [0,1] — every aggression score
and every confidence value in the result lies in [0,1]. -/
theorem aggregate_invariants (v : VideoSource) (k maxf : ℕ)
    (hdet : ∀ i : ℕ, ∀ d ∈ v.detections i, 0 ≤ d.confidence ∧ d.confidence ≤ 1) :
    (aggregate (frameResults v k maxf)).aggressive_votes
        + (aggregate (frameResults v k maxf)).non_aggressive_votes
      = (videoMetadataOf v k maxf).frames_processed
    ∧ (videoMetadataOf v k maxf).frames_processed
      = (aggregate (frameResults v k maxf)).frame_results.length
    ∧ (∀ fr ∈ (aggregate (frameResults v k maxf)).frame_results,
        (0 ≤ fr.aggression_score ∧ fr.aggression_score ≤ 1)
        ∧ ∀ d ∈ fr.detections, 0 ≤ d.confidence ∧ d.confidence ≤ 1)
    ∧ 0 ≤ (aggregate (frameResults v k maxf)).confidence
    ∧ (aggregate (frameResults v k maxf)).confidence ≤ 1 := by
  refine ⟨votes_sum _, rfl, ?_, ?_, ?_⟩
  · intro fr hfr
    obtain ⟨i, hi, rfl⟩ := List.mem_map.mp
      (show fr ∈ (processedIndices v k maxf).map
          (fun i => scoreFrame i ((i : ℚ) / v.fps) (v.detections i)) from hfr)
    refine ⟨⟨aggressionScore_nonneg _, aggressionScore_le_one _⟩, ?_⟩
    intro d hd
    exact hdet i d (List.mem_of_mem_filter hd)
  · have hconf : (aggregate (frameResults v k maxf)).confidence
        = max ((aggressiveVotes (frameResults v k maxf) : ℕ) : ℚ)
            ((nonAggressiveVotes (frameResults v k maxf) : ℕ) : ℚ)
          / (((frameResults v k maxf).length : ℕ) : ℚ) := rfl
    rw [hconf]
    apply div_nonneg
    · exact le_trans (Nat.cast_nonneg _) (le_max_left _ _)
    · exact Nat.cast_nonneg _
  · have hconf : (aggregate (frameResults v k maxf)).confidence
        = max ((aggressiveVotes (frameResults v k maxf) : ℕ) : ℚ)
            ((nonAggressiveVotes (frameResults v k maxf) : ℕ) : ℚ)
          / (((frameResults v k maxf).length : ℕ) : ℚ) := rfl
    have hsum := votes_sum (frameResults v k maxf)
    rcases Nat.eq_zero_or_pos (frameResults v k maxf).length with hz | hp
    · have hzq : (((frameResults v k maxf).length : ℕ) : ℚ) = 0 := by
        exact_mod_cast hz
      rw [hconf, hzq, div_zero]
      norm_num
    · have hL : (0 : ℚ) < (((frameResults v k maxf).length : ℕ) : ℚ) := by
        exact_mod_cast hp
      rw [hconf, div_le_one hL]
      have hmle : max (aggressiveVotes (frameResults v k maxf))
          (nonAggressiveVotes (frameResults v k maxf))
          ≤ (frameResults v k maxf).length := by omega
      exact_mod_cast hmle

/-- Witness for C5 at the sample source whose detector reports a single
in-range confidence. -/
theorem aggregate_invariants_witness :
    (∀ i : ℕ, ∀ d ∈ sampleSource.detections i, 0 ≤ d.confidence ∧ d.confidence ≤ 1)
    ∧ (aggregate (frameResults sampleSource 5 100)).aggressive_votes
        + (aggregate (frameResults sampleSource 5 100)).non_aggressive_votes
      = (videoMetadataOf sampleSource 5 100).frames_processed := by
  have hdet : ∀ i : ℕ, ∀ d ∈ sampleSource.detections i,
      0 ≤ d.confidence ∧ d.confidence ≤ 1 := by
    intro i d hd
    have hdc : d = calmDogDetection := by simpa [sampleSource] using hd
    rw [hdc]
    exact ⟨by decide, by decide⟩
  exact ⟨hdet, (aggregate_invariants sampleSource 5 100 hdet).1⟩

/-- C6: for every video request that completes, the number of frames
processed never exceeds the `max_frames` bound — in the configured
deployment, `max_frames = 100` — so the bound is hard, not advisory. -/
theorem frames_processed_bounded (v : VideoSource) (k maxf : ℕ)
    (r : VideoAnalysisResponse)
    (h : analyzeVideoPipeline v k maxf = Except.ok r) :
    r.video_metadata.frames_processed ≤ maxf := by
  unfold analyzeVideoPipeline at h
  split_ifs at h
  cases h
  have h1 : (composeVideo v k maxf).video_metadata.frames_processed
      = (frameResults v k maxf).length := rfl
  rw [h1]
  have hlen : (frameResults v k maxf).length
      = (processedIndices v k maxf).length := List.length_map _ _
  have hfil : (processedIndices v k maxf).length
      ≤ (frameSampler v.total_frames k maxf).length := List.length_filter_le _ _
  have hmax : (frameSampler v.total_frames k maxf).length ≤ maxf := by
    simp only [frameSampler, List.length_map, List.length_range, sampleCount]
    exact min_le_right _ _
  omega

/-- Witness for C6: the request for the sample source completes and processes at
most 100 frames. -/
theorem frames_processed_bounded_witness :
    analyzeVideoPipeline sampleSource 5 100
      = Except.ok (composeVideo sampleSource 5 100)
    ∧ (composeVideo sampleSource 5 100).video_metadata.frames_processed ≤ 100 :=
  ⟨rfl, frames_processed_bounded sampleSource 5 100 _ rfl⟩

end AIBSS
